import Mathlib

/-!
Shallow embedding of `tracktotrip3/location.py`: the proximity cache, the two
provider adapters, the centroid-update algorithm, the `infer_location`
resolver, and the `Location` aggregate with its JSON serialization.

External collaborators are parameters of the embedding: the `Point` distance
metric is an explicit function argument, the DBSCAN labelling and the provider
HTTP responses are explicit inputs.  Machine floats of the source are modelled
as rationals.
-/

namespace TTT

/-- Geographic point.  `Point` is external to `location.py`; it is modelled
with the latitude/longitude coordinates, the only fields the module uses. -/
structure Point where
  lat : ℚ
  lon : ℚ
  deriving DecidableEq, Repr

/-- Candidate record: the dictionaries built by the knowledge-base branch of
`infer_location` and by the provider adapters.  KB dictionaries carry no
`types` key, hence the `Option`. -/
structure Candidate where
  label : String
  distance : ℚ
  types : Option (List String)
  suggestion_type : String
  deriving DecidableEq, Repr

/-- A provider cache (`GG_CACHE` / `FS_CACHE`): a Python dict keyed by points,
modelled as an insertion-ordered association list with unique keys. -/
abbrev Cache := List (Point × List Candidate)

/-- `from_cache` (location.py lines 21-24): scan the keys in insertion order
and return the value stored under the first key strictly closer than
`threshold` to `point`; `none` models Python's implicit `None` return. -/
def from_cache (dist : Point → Point → ℚ) : Cache → Point → ℚ → Option (List Candidate)
  | [], _, _ => none
  | (k, v) :: rest, point, threshold =>
    if dist point k < threshold then some v else from_cache dist rest point threshold

/-- `google_insert_cache` / `foursquare_insert_cache` (lines 26-32): Python
dict assignment `CACHE[point] = values` — overwrite a structurally equal
existing key in place, otherwise append a new entry. -/
def insert_cache (cache : Cache) (point : Point) (values : List Candidate) : Cache :=
  if cache.any (fun e => e.1 == point) then
    cache.map (fun e => if e.1 = point then (e.1, values) else e)
  else cache ++ [(point, values)]

/-- Python truthiness of the provider key argument (`if not key: return []`):
`None` and `""` are falsy. -/
def key_truthy : Option String → Bool
  | none => false
  | some s => !(s == "")

/-- Raw Google nearby-search result (one element of `results` in the body). -/
structure GResult where
  name : String
  loc_lat : ℚ
  loc_lng : ℚ
  types : List String
  deriving DecidableEq, Repr

/-- Google HTTP response: status code plus decoded `results`. -/
structure GResp where
  status : Nat
  results : List GResult
  deriving DecidableEq, Repr

/-- Raw Foursquare category (`{name: ...}` object). -/
structure FCategory where
  name : String
  deriving DecidableEq, Repr

/-- Raw Foursquare place-search result. -/
structure FResult where
  name : String
  distance : ℚ
  categories : List FCategory
  deriving DecidableEq, Repr

/-- Foursquare HTTP response: status code plus decoded `results`. -/
structure FResp where
  status : Nat
  results : List FResult
  deriving DecidableEq, Repr

/-- Observable outcome of one provider-adapter call: the returned candidates,
the provider cache afterwards, whether the network was contacted and whether
the cache was consulted. -/
structure QueryOut where
  result : List Candidate
  cache : Cache
  net_access : Bool
  cache_read : Bool
  deriving DecidableEq, Repr

/-- Normalisation loop of `query_google` (lines 182-189): the per-result
distance is computed locally from the returned coordinates. -/
def google_results (dist : Point → Point → ℚ) (point : Point) (results : List GResult) :
    List Candidate :=
  results.map fun r =>
    { label := r.name
      distance := dist ⟨r.loc_lat, r.loc_lng⟩ point
      types := some r.types
      suggestion_type := "GOOGLE" }

/-- Normalisation loop of `query_foursquare` (lines 131-140): the distance is
taken verbatim from the response. -/
def foursquare_results (results : List FResult) : List Candidate :=
  results.map fun r =>
    { label := r.name
      distance := r.distance
      types := some (r.categories.map (fun c => c.name))
      suggestion_type := "FOURSQUARE" }

/-- `query_google` (lines 147-192).  The HTTP response the network would give
is the explicit argument `resp`; `net_access` records whether `requests.get`
runs.  An absent or empty key short-circuits; only a cached *non-empty* value
is a hit (`if from_cache(...)` — Python truthiness); a non-200 status returns
`[]` without touching the cache; a 200 response is normalised and cached. -/
def query_google (dist : Point → Point → ℚ) (cache : Cache) (point : Point)
    (max_distance : ℚ) (key : Option String) (resp : GResp) : QueryOut :=
  if !key_truthy key then ⟨[], cache, false, false⟩
  else
    match from_cache dist cache point max_distance with
    | some (c :: cs) => ⟨c :: cs, cache, false, true⟩
    | _ =>
      if resp.status ≠ 200 then ⟨[], cache, true, true⟩
      else
        let final_results := google_results dist point resp.results
        ⟨final_results, insert_cache cache point final_results, true, true⟩

/-- `query_foursquare` (lines 92-144), same shape as `query_google` with the
Foursquare normalisation. -/
def query_foursquare (dist : Point → Point → ℚ) (cache : Cache) (point : Point)
    (max_distance : ℚ) (key : Option String) (resp : FResp) : QueryOut :=
  if !key_truthy key then ⟨[], cache, false, false⟩
  else
    match from_cache dist cache point max_distance with
    | some (c :: cs) => ⟨c :: cs, cache, false, true⟩
    | _ =>
      if resp.status ≠ 200 then ⟨[], cache, true, true⟩
      else
        let result := foursquare_results resp.results
        ⟨result, insert_cache cache point result, true, true⟩

/-- Rational mean (`np.mean`); the modelled call sites never pass `[]`. -/
def qmean (xs : List ℚ) : ℚ := xs.sum / xs.length

/-- `compute_centroid` (lines 35-45): points are raw `(lon, lat)` pairs
(`p[1]` is the latitude, `p[0]` the longitude); the result is
`Point(mean lats, mean lons)`. -/
def compute_centroid (points : List (ℚ × ℚ)) : Point :=
  ⟨qmean (points.map Prod.snd), qmean (points.map Prod.fst)⟩

/-- Modelled from the spec: `Point.gen2arr` lives in the external `point.py`;
§4.2 step 3 fixes the array layout as raw `(lon, lat)` coordinate order. -/
def gen2arr (p : Point) : ℚ × ℚ := (p.lon, p.lat)

/-- One step of the grouping loop of `update_location_centroid` (lines 68-73):
append the point to an existing label's list, else append a new label entry. -/
def add_to_groups (acc : List (Int × List (ℚ × ℚ))) (l : Int) (x : ℚ × ℚ) :
    List (Int × List (ℚ × ℚ)) :=
  if acc.any (fun g => g.1 == l) then
    acc.map (fun g => if g.1 = l then (g.1, g.2 ++ [x]) else g)
  else acc ++ [(l, [x])]

/-- The grouping loop: clusters keyed by DBSCAN label, in first-appearance
(insertion) order — the order `clusters.items()` iterates afterwards. -/
def group_by_label (xs : List (Int × (ℚ × ℚ))) : List (Int × List (ℚ × ℚ)) :=
  xs.foldl (fun acc p => add_to_groups acc p.1 p.2) []

/-- `len(n_cluster) >= biggest_centroid_l`, where `biggest_centroid_l` starts
at `-float("inf")` (modelled by `none`). -/
def ge_biggest : Option Nat → Nat → Bool
  | none, _ => true
  | some m, n => decide (m ≤ n)

/-- Selection loop of `update_location_centroid` (lines 75-85): keep the
centroid of the latest non-noise cluster whose size is `>=` the best so far. -/
def select_biggest (groups : List (Int × List (ℚ × ℚ))) : Option Point :=
  (groups.foldl
    (fun acc g =>
      if 0 ≤ g.1 ∧ ge_biggest acc.1 g.2.length = true then
        (some g.2.length, some (compute_centroid g.2))
      else acc)
    ((none : Option Nat), (none : Option Point))).2

/-- `update_location_centroid` (lines 47-90).  DBSCAN is an external black
box; its label vector is the explicit argument `labels` (noise = `-1`).  The
fallback `compute_centroid(points)` fires when no non-noise cluster exists. -/
def update_location_centroid (point : Point) (cluster : List Point) (labels : List Int) :
    Point × List Point :=
  let cluster' := cluster ++ [point]
  let points := cluster'.map gen2arr
  let groups := group_by_label (labels.zip points)
  ((select_biggest groups).getD (compute_centroid points), cluster')

/-- JSON values (the dictionaries Python passes around); objects keep their
field order. -/
inductive JVal where
  | str (s : String)
  | num (q : ℚ)
  | arr (elems : List JVal)
  | obj (fields : List (String × JVal))

/-- The `position` attribute of a `Location` is untyped in Python: an actual
`Point` on normal construction, the raw position JSON after `from_json`. -/
inductive PosVal where
  | pt (p : Point)
  | json (j : JVal)

/-- The `Location` aggregate (lines 253-265): label, centroid, alternatives
(`other`). -/
structure Location where
  label : String
  centroid : PosVal
  other : List Candidate

/-- Ascending-by-distance comparison used by
`sorted(..., key=lambda d: d['distance'])`. -/
def cand_le (a b : Candidate) : Prop := a.distance ≤ b.distance

instance : DecidableRel cand_le :=
  fun a b => inferInstanceAs (Decidable (a.distance ≤ b.distance))

instance : IsTotal Candidate cand_le := ⟨fun a b => le_total a.distance b.distance⟩

instance : IsTrans Candidate cand_le := ⟨fun _ _ _ h h' => le_trans h h'⟩

/-- Python's `sorted` is the stable ascending sort; `List.insertionSort` with
a `≤` comparison computes exactly that order. -/
def sort_by_distance (l : List Candidate) : List Candidate := l.insertionSort cand_le

/-- The sentinel label of the empty-knowledge-base branch (line 251). -/
def unknown_label : String := "#?"

/-- KB-candidate construction of `infer_location` (lines 217-227): one
`suggestion_type = KB` candidate per `(label, centroid, _)` tuple, with the
distance computed as `centroid.distance(point)`. -/
def kb_candidates (dist : Point → Point → ℚ) (point : Point)
    (location_query : Option (Point → ℚ → List (String × Point × Unit)))
    (max_distance : ℚ) : List Candidate :=
  match location_query with
  | none => []
  | some q =>
    (q point max_distance).map fun t =>
      { label := t.1
        distance := dist t.2.1 point
        types := none
        suggestion_type := "KB" }

/-- `infer_location` (lines 194-251).  Returns `none` exactly when the Python
code raises `IndexError` at `locations[0]` (knowledge-base branch whose
concatenation was truncated to the empty list). -/
def infer_location (dist : Point → Point → ℚ) (g_cache f_cache : Cache) (point : Point)
    (location_query : Option (Point → ℚ → List (String × Point × Unit)))
    (max_distance : ℚ) (use_google : Bool) (google_key : Option String)
    (use_foursquare : Bool) (foursquare_key : Option String) (limit : Nat)
    (g_resp : GResp) (f_resp : FResp) : Option Location :=
  let locations := kb_candidates dist point location_query max_distance
  let api_locations :=
    if locations.length ≤ limit then
      (if use_google && key_truthy google_key then
        (query_google dist g_cache point max_distance google_key g_resp).result
      else []) ++
      (if use_foursquare && key_truthy foursquare_key then
        (query_foursquare dist f_cache point max_distance foursquare_key f_resp).result
      else [])
    else []
  let api_sorted :=
    if 0 < api_locations.length then sort_by_distance api_locations else api_locations
  if 0 < locations.length then
    let sorted_l := sort_by_distance locations
    let trunc := (sorted_l ++ api_sorted).take limit
    match trunc.head? with
    | some c => some ⟨c.label, PosVal.pt point, trunc⟩
    | none => none
  else some ⟨unknown_label, PosVal.pt point, api_sorted⟩

/-- Modelled from the spec: `Point.to_json` lives in the external `point.py`;
§6 only calls it "Point's own JSON form", modelled as an object carrying the
coordinates. -/
def Point.to_json (p : Point) : JVal :=
  .obj [("lat", .num p.lat), ("lon", .num p.lon)]

/-- The candidate dictionaries as JSON values, in the key order of the source
dict literals (KB dictionaries have no `types` key). -/
def Candidate.to_jval (c : Candidate) : JVal :=
  .obj ([("label", .str c.label), ("distance", .num c.distance)] ++
    (match c.types with
     | none => []
     | some ts => [("types", JVal.arr (ts.map JVal.str))]) ++
    [("suggestion_type", .str c.suggestion_type)])

/-- `Location.to_json` (lines 277-287): calls `self.centroid.to_json()`, which
only exists when the centroid is an actual `Point` (`none` models the
`AttributeError` on a raw-JSON centroid). -/
def Location.to_json (loc : Location) : Option JVal :=
  match loc.centroid with
  | .pt p =>
    some (.obj [("label", .str loc.label), ("position", p.to_json),
      ("other", .arr (loc.other.map Candidate.to_jval))])
  | .json _ => none

/-- Python `j['key']` on a decoded JSON document: field lookup on an object;
`none` models the `KeyError` / `TypeError` exceptions. -/
def jget (j : JVal) (key : String) : Option JVal :=
  match j with
  | .obj fields => (fields.find? (fun f => f.1 == key)).map (fun f => f.2)
  | _ => none

/-- `Location.from_json` (lines 289-296): takes `json['label']` and the *raw*
`json['position']` (the position is not parsed back into a `Point`) and always
resets the alternatives to `[]`.  Labels are strings throughout the module. -/
def Location.from_json (j : JVal) : Option Location :=
  match jget j "label", jget j "position" with
  | some (.str l), some pos => some ⟨l, .json pos, []⟩
  | _, _ => none

/-- A simple, fully computable metric used by the concrete instantiations in
the theorems below (the distance function is an arbitrary parameter of the
embedding). -/
def taxicab (a b : Point) : ℚ :=
  (if a.lat ≤ b.lat then b.lat - a.lat else a.lat - b.lat) +
  (if a.lon ≤ b.lon then b.lon - a.lon else a.lon - b.lon)

/-! ### Helper lemmas -/

theorem from_cache_nil (dist : Point → Point → ℚ) (pt : Point) (thr : ℚ) :
    from_cache dist [] pt thr = none := rfl

theorem from_cache_cons (dist : Point → Point → ℚ) (k : Point) (v : List Candidate)
    (rest : Cache) (pt : Point) (thr : ℚ) :
    from_cache dist ((k, v) :: rest) pt thr =
      if dist pt k < thr then some v else from_cache dist rest pt thr := rfl

/-- C5, soundness half: if no key before position `i` qualifies and the key at
`i` is strictly within the threshold, the scan returns the value at `i`. -/
theorem from_cache_hit (dist : Point → Point → ℚ) (pt : Point) (thr : ℚ) :
    ∀ (pre : Cache) (k : Point) (v : List Candidate) (post : Cache),
      (∀ e ∈ pre, ¬ dist pt e.1 < thr) → dist pt k < thr →
      from_cache dist (pre ++ (k, v) :: post) pt thr = some v := by
  intro pre
  induction pre with
  | nil =>
    intro k v post _ hk
    simp [from_cache_cons, hk]
  | cons e pre ih =>
    intro k v post hpre hk
    obtain ⟨ek, ev⟩ := e
    have he : ¬ dist pt ek < thr := hpre (ek, ev) (List.mem_cons_self _ _)
    rw [List.cons_append, from_cache_cons, if_neg he]
    exact ih k v post (fun e h => hpre e (List.mem_cons_of_mem _ h)) hk

/-- C5, completeness half: any hit comes from a strictly-closer-than-threshold
key all of whose predecessors miss. -/
theorem from_cache_hit_inv (dist : Point → Point → ℚ) (pt : Point) (thr : ℚ) :
    ∀ (cache : Cache) (v : List Candidate),
      from_cache dist cache pt thr = some v →
      ∃ pre k post, cache = pre ++ (k, v) :: post ∧ dist pt k < thr ∧
        ∀ e ∈ pre, ¬ dist pt e.1 < thr := by
  intro cache
  induction cache with
  | nil => intro v h; exact absurd h (by simp [from_cache_nil])
  | cons e rest ih =>
    intro v h
    obtain ⟨ek, ev⟩ := e
    rw [from_cache_cons] at h
    by_cases hd : dist pt ek < thr
    · rw [if_pos hd] at h
      obtain rfl : ev = v := Option.some.inj h
      exact ⟨[], ek, rest, rfl, hd, by simp⟩
    · rw [if_neg hd] at h
      obtain ⟨pre, k, post, rfl, hk, hpre⟩ := ih v h
      refine ⟨(ek, ev) :: pre, k, post, rfl, hk, ?_⟩
      intro e he
      rcases List.mem_cons.mp he with rfl | he
      · exact hd
      · exact hpre e he

/-! ### Claim theorems -/

/-- C5: the cache lookup returns the value of the first cached key (in
insertion order) whose distance to the query point is strictly less than the
threshold; conversely every hit comes from such a key, so a key at distance
exactly equal to the threshold is never a hit. -/
theorem from_cache_first_strict (dist : Point → Point → ℚ) (pt : Point) (thr : ℚ) :
    (∀ (pre : Cache) (k : Point) (v : List Candidate) (post : Cache),
      (∀ e ∈ pre, ¬ dist pt e.1 < thr) → dist pt k < thr →
      from_cache dist (pre ++ (k, v) :: post) pt thr = some v) ∧
    (∀ (cache : Cache) (v : List Candidate),
      from_cache dist cache pt thr = some v →
      ∃ pre k post, cache = pre ++ (k, v) :: post ∧ dist pt k < thr ∧
        ∀ e ∈ pre, ¬ dist pt e.1 < thr) :=
  ⟨from_cache_hit dist pt thr, from_cache_hit_inv dist pt thr⟩

/-- Witness for C5: a first key at distance 5 (not `< 3`, a miss even though
cached first) is skipped, the key at distance 1 is the hit. -/
theorem from_cache_first_strict_wit :
    from_cache taxicab
      [(⟨5, 0⟩, []), (⟨1, 0⟩, [⟨"x", 1, none, "KB"⟩])] ⟨0, 0⟩ 3 =
      some [⟨"x", 1, none, "KB"⟩] :=
  (from_cache_first_strict taxicab ⟨0, 0⟩ 3).1
    [(⟨5, 0⟩, [])] ⟨1, 0⟩ [⟨"x", 1, none, "KB"⟩] [] (by simp +decide [taxicab])
    (by simp +decide [taxicab])

/-- C7: a provider adapter called with an absent or empty API key returns `[]`
immediately: no network access, no cache read, cache returned unchanged. -/
theorem key_gating (dist : Point → Point → ℚ) (g_cache f_cache : Cache) (point : Point)
    (max_distance : ℚ) (key : Option String) (g_resp : GResp) (f_resp : FResp)
    (h : key_truthy key = false) :
    query_google dist g_cache point max_distance key g_resp = ⟨[], g_cache, false, false⟩ ∧
    query_foursquare dist f_cache point max_distance key f_resp = ⟨[], f_cache, false, false⟩ := by
  constructor <;> simp [query_google, query_foursquare, h]

/-- Witness for C7: absent key (`None`). -/
theorem key_gating_wit :
    query_google (fun _ _ => 0) [] ⟨0, 0⟩ 10 none ⟨200, []⟩ = ⟨[], [], false, false⟩ ∧
    query_foursquare (fun _ _ => 0) [] ⟨0, 0⟩ 10 none ⟨200, []⟩ = ⟨[], [], false, false⟩ :=
  key_gating (fun _ _ => 0) [] [] ⟨0, 0⟩ 10 none ⟨200, []⟩ ⟨200, []⟩ (by decide)

/-- C8: with a usable key and a cache miss (no qualifying key, or a qualifying
key holding `[]`), a non-200 status returns `[]` with the cache unchanged,
while a 200 response — even with an empty `results` list — is normalised and
written into the cache under the query point. -/
theorem status_gating (dist : Point → Point → ℚ) (cache : Cache) (point : Point)
    (max_distance : ℚ) (key : Option String) (g_resp : GResp) (f_resp : FResp)
    (hkey : key_truthy key = true)
    (hmiss : from_cache dist cache point max_distance = none ∨
      from_cache dist cache point max_distance = some []) :
    ((g_resp.status ≠ 200 →
        query_google dist cache point max_distance key g_resp = ⟨[], cache, true, true⟩) ∧
      (g_resp.status = 200 →
        query_google dist cache point max_distance key g_resp =
          ⟨google_results dist point g_resp.results,
            insert_cache cache point (google_results dist point g_resp.results), true, true⟩)) ∧
    ((f_resp.status ≠ 200 →
        query_foursquare dist cache point max_distance key f_resp = ⟨[], cache, true, true⟩) ∧
      (f_resp.status = 200 →
        query_foursquare dist cache point max_distance key f_resp =
          ⟨foursquare_results f_resp.results,
            insert_cache cache point (foursquare_results f_resp.results), true, true⟩)) := by
  refine ⟨⟨?_, ?_⟩, ?_, ?_⟩ <;> intro hs <;> rcases hmiss with h | h <;>
    simp [query_google, query_foursquare, hkey, h, hs]

/-- Witness for C8: a 500 response is not cached; an empty 200 response is. -/
theorem status_gating_wit :
    query_google (fun _ _ => 0) [] ⟨0, 0⟩ 10 (some "k") ⟨500, []⟩ = ⟨[], [], true, true⟩ ∧
    query_foursquare (fun _ _ => 0) [] ⟨0, 0⟩ 10 (some "k") ⟨200, []⟩ =
      ⟨[], [(⟨0, 0⟩, [])], true, true⟩ := by
  have h := status_gating (fun _ _ => 0) [] ⟨0, 0⟩ 10 (some "k") ⟨500, []⟩ ⟨200, []⟩
    (by decide) (Or.inl (by decide))
  exact ⟨h.1.1 (by decide), (h.2.2 (by decide)).trans (by decide)⟩

/-- C6: inserting `[]` under a key within threshold leaves the next lookup a
miss — the adapter still contacts the network; inserting a non-empty list
makes the adapter return exactly that list, cache untouched, no network. -/
theorem cache_asymmetry (dist : Point → Point → ℚ) (point k : Point) (max_distance : ℚ)
    (key : Option String) (g_resp : GResp) (f_resp : FResp) (v w : List Candidate)
    (hkey : key_truthy key = true) (hnear : dist point k < max_distance) (hv : v ≠ []) :
    insert_cache [] k w = [(k, w)] ∧
    (query_google dist [(k, [])] point max_distance key g_resp).net_access = true ∧
    (query_foursquare dist [(k, [])] point max_distance key f_resp).net_access = true ∧
    query_google dist [(k, v)] point max_distance key g_resp = ⟨v, [(k, v)], false, true⟩ ∧
    query_foursquare dist [(k, v)] point max_distance key f_resp = ⟨v, [(k, v)], false, true⟩ := by
  obtain ⟨c, cs, rfl⟩ := List.exists_cons_of_ne_nil hv
  refine ⟨rfl, ?_, ?_, ?_, ?_⟩
  · simp only [query_google, hkey, Bool.not_true, Bool.false_eq_true, if_false,
      from_cache_cons, if_pos hnear]
    split <;> rfl
  · simp only [query_foursquare, hkey, Bool.not_true, Bool.false_eq_true, if_false,
      from_cache_cons, if_pos hnear]
    split <;> rfl
  · simp only [query_google, hkey, Bool.not_true, Bool.false_eq_true, if_false,
      from_cache_cons, if_pos hnear]
  · simp only [query_foursquare, hkey, Bool.not_true, Bool.false_eq_true, if_false,
      from_cache_cons, if_pos hnear]

/-- Witness for C6: key at distance 1 of the query point, threshold 10. -/
theorem cache_asymmetry_wit :
    insert_cache [] ⟨0, 1⟩ [] = [(⟨0, 1⟩, [])] ∧
    (query_google taxicab [(⟨0, 1⟩, [])] ⟨0, 0⟩ 10
      (some "k") ⟨200, []⟩).net_access = true ∧
    (query_foursquare taxicab [(⟨0, 1⟩, [])] ⟨0, 0⟩ 10
      (some "k") ⟨200, []⟩).net_access = true ∧
    query_google taxicab [(⟨0, 1⟩, [⟨"a", 1, none, "KB"⟩])]
      ⟨0, 0⟩ 10 (some "k") ⟨200, []⟩ =
      ⟨[⟨"a", 1, none, "KB"⟩], [(⟨0, 1⟩, [⟨"a", 1, none, "KB"⟩])], false, true⟩ ∧
    query_foursquare taxicab
      [(⟨0, 1⟩, [⟨"a", 1, none, "KB"⟩])] ⟨0, 0⟩ 10 (some "k") ⟨200, []⟩ =
      ⟨[⟨"a", 1, none, "KB"⟩], [(⟨0, 1⟩, [⟨"a", 1, none, "KB"⟩])], false, true⟩ :=
  cache_asymmetry taxicab ⟨0, 0⟩ ⟨0, 1⟩ 10 (some "k")
    ⟨200, []⟩ ⟨200, []⟩ [⟨"a", 1, none, "KB"⟩] [] (by decide) (by simp +decide [taxicab])
    (by decide)

/-! ### Clustering lemmas -/

/-- If no group satisfies the update condition at the incoming state, the
selection fold leaves the state unchanged. -/
theorem select_foldl_no_update (groups : List (Int × List (ℚ × ℚ))) :
    ∀ acc : Option Nat × Option Point,
      (∀ g ∈ groups, ¬ (0 ≤ g.1 ∧ ge_biggest acc.1 g.2.length = true)) →
      groups.foldl
        (fun acc g =>
          if 0 ≤ g.1 ∧ ge_biggest acc.1 g.2.length = true then
            (some g.2.length, some (compute_centroid g.2))
          else acc)
        acc = acc := by
  induction groups with
  | nil => intro acc _; rfl
  | cons g gs ih =>
    intro acc h
    simp only [List.foldl_cons]
    rw [if_neg (h g (List.mem_cons_self _ _))]
    exact ih acc (fun g' hg' => h g' (List.mem_cons_of_mem _ hg'))

/-- Folding groups whose non-noise members all have size `≤ n` keeps the
running best size bounded by `n`. -/
theorem select_foldl_bound (pre : List (Int × List (ℚ × ℚ))) (n : Nat) :
    ∀ acc : Option Nat × Option Point,
      (∀ g ∈ pre, 0 ≤ g.1 → g.2.length ≤ n) →
      ge_biggest acc.1 n = true →
      ge_biggest
        ((pre.foldl
          (fun acc g =>
            if 0 ≤ g.1 ∧ ge_biggest acc.1 g.2.length = true then
              (some g.2.length, some (compute_centroid g.2))
            else acc)
          acc).1) n = true := by
  induction pre with
  | nil => intro acc _ h; exact h
  | cons g gs ih =>
    intro acc hpre hacc
    simp only [List.foldl_cons]
    by_cases hc : 0 ≤ g.1 ∧ ge_biggest acc.1 g.2.length = true
    · rw [if_pos hc]
      refine ih _ (fun g' h' => hpre g' (List.mem_cons_of_mem _ h')) ?_
      exact decide_eq_true (hpre g (List.mem_cons_self _ _) hc.1)
    · rw [if_neg hc]
      exact ih _ (fun g' h' => hpre g' (List.mem_cons_of_mem _ h')) hacc

/-- The `>=` update makes the selection keep the *last* non-noise group whose
size ties or beats everything before it and strictly beats everything after. -/
theorem select_biggest_last_max (pre post : List (Int × List (ℚ × ℚ)))
    (g : Int × List (ℚ × ℚ)) (hg : 0 ≤ g.1)
    (hpre : ∀ g' ∈ pre, 0 ≤ g'.1 → g'.2.length ≤ g.2.length)
    (hpost : ∀ g' ∈ post, 0 ≤ g'.1 → g'.2.length < g.2.length) :
    select_biggest (pre ++ g :: post) = some (compute_centroid g.2) := by
  unfold select_biggest
  rw [List.foldl_append, List.foldl_cons]
  have hb := select_foldl_bound pre g.2.length ((none : Option Nat), (none : Option Point))
    hpre rfl
  rw [if_pos ⟨hg, hb⟩]
  rw [select_foldl_no_update post _ ?_]
  intro g' hg'
  intro hc
  rcases hc with ⟨hge, hle⟩
  have := of_decide_eq_true (by simpa [ge_biggest] using hle)
  exact absurd this (Nat.not_le.mpr (hpost g' hg' hge))

/-- Every group label produced by `add_to_groups` is negative when all
incoming labels are. -/
theorem add_to_groups_label_lt (acc : List (Int × List (ℚ × ℚ))) (l : Int) (x : ℚ × ℚ)
    (hacc : ∀ g ∈ acc, g.1 < 0) (hl : l < 0) :
    ∀ g ∈ add_to_groups acc l x, g.1 < 0 := by
  intro g hg
  unfold add_to_groups at hg
  split at hg
  · obtain ⟨g0, hg0, rfl⟩ := List.mem_map.mp hg
    by_cases h : g0.1 = l
    · simpa [h] using hl
    · simpa [h] using hacc g0 hg0
  · rcases List.mem_append.mp hg with h | h
    · exact hacc g h
    · obtain rfl : g = (l, [x]) := List.mem_singleton.mp h
      exact hl

/-- All labels of the grouping are negative when every zipped label is. -/
theorem foldl_groups_labels_lt (xs : List (Int × (ℚ × ℚ))) :
    ∀ acc : List (Int × List (ℚ × ℚ)),
      (∀ g ∈ acc, g.1 < 0) → (∀ p ∈ xs, p.1 < 0) →
      ∀ g ∈ xs.foldl (fun acc p => add_to_groups acc p.1 p.2) acc, g.1 < 0 := by
  induction xs with
  | nil => intro acc hacc _; simpa using hacc
  | cons p xs ih =>
    intro acc hacc hxs
    simp only [List.foldl_cons]
    exact ih _ (add_to_groups_label_lt acc p.1 p.2 hacc (hxs p (List.mem_cons_self _ _)))
      (fun q hq => hxs q (List.mem_cons_of_mem _ hq))

/-- With only noise labels the selection finds no cluster at all. -/
theorem select_biggest_all_noise (groups : List (Int × List (ℚ × ℚ)))
    (h : ∀ g ∈ groups, g.1 < 0) : select_biggest groups = none := by
  unfold select_biggest
  rw [select_foldl_no_update groups _ (fun g hg hc => absurd hc.1 (not_le.mpr (h g hg)))]

/-- C4: when DBSCAN labels every point as noise, `update_location_centroid`
falls back to the arithmetic-mean centroid of the whole extended history, and
the returned history is the given history with the new point appended; the
operation is total (never an error). -/
theorem update_centroid_noise_fallback (point : Point) (cluster : List Point)
    (labels : List Int) (hlen : labels.length = cluster.length + 1)
    (hnoise : ∀ l ∈ labels, l = -1) :
    update_location_centroid point cluster labels =
      (compute_centroid ((cluster ++ [point]).map gen2arr), cluster ++ [point]) := by
  have hz : ∀ p ∈ labels.zip ((cluster ++ [point]).map gen2arr), p.1 < 0 := by
    intro p hp
    have hm := (List.of_mem_zip hp).1
    have := hnoise _ hm
    omega
  have hneg : ∀ g ∈ group_by_label (labels.zip ((cluster ++ [point]).map gen2arr)),
      g.1 < 0 :=
    foldl_groups_labels_lt (labels.zip ((cluster ++ [point]).map gen2arr)) [] (by simp) hz
  have hdef : update_location_centroid point cluster labels =
      ((select_biggest (group_by_label
          (labels.zip ((cluster ++ [point]).map gen2arr)))).getD
        (compute_centroid ((cluster ++ [point]).map gen2arr)), cluster ++ [point]) := rfl
  rw [hdef, select_biggest_all_noise _ hneg]
  rfl

/-- Witness for C4: two points, both labelled noise; the centroid is the mean
of both (`Point(1, 1)`). -/
theorem update_centroid_noise_fallback_wit :
    update_location_centroid ⟨2, 2⟩ [⟨0, 0⟩] [-1, -1] =
      (compute_centroid (([⟨0, 0⟩, ⟨2, 2⟩] : List Point).map gen2arr), [⟨0, 0⟩, ⟨2, 2⟩]) :=
  update_centroid_noise_fallback ⟨2, 2⟩ [⟨0, 0⟩] [-1, -1] (by decide) (by decide)

/-- C3 counterexample: two non-noise clusters tie at two members each
(labels `[0, 0, 1, 1]`); the returned centroid is the *second* cluster's
centroid, not the first's, refuting first-cluster-wins. -/
theorem update_centroid_tie_cex :
    (update_location_centroid ⟨10, 12⟩ [⟨0, 0⟩, ⟨0, 2⟩, ⟨10, 10⟩] [0, 0, 1, 1]).1 =
      compute_centroid [(10, 10), (12, 10)] ∧
    compute_centroid [(10, 10), (12, 10)] ≠ compute_centroid [(0, 0), (2, 0)] := by
  constructor
  · norm_num +decide [update_location_centroid, group_by_label, add_to_groups,
      select_biggest, ge_biggest, gen2arr, compute_centroid, qmean]
  · norm_num +decide [compute_centroid, qmean, Point.mk.injEq]

/-- C3 amended: with the `>=` comparison, `update_location_centroid` returns
the centroid of the **last** cluster (in iteration order over cluster labels)
reaching the maximal member count; a later cluster of equal size replaces an
earlier one. -/
theorem update_centroid_last_max (point : Point) (cluster : List Point) (labels : List Int)
    (pre post : List (Int × List (ℚ × ℚ))) (g : Int × List (ℚ × ℚ))
    (hsplit : group_by_label (labels.zip ((cluster ++ [point]).map gen2arr)) =
      pre ++ g :: post)
    (hg : 0 ≤ g.1)
    (hpre : ∀ g' ∈ pre, 0 ≤ g'.1 → g'.2.length ≤ g.2.length)
    (hpost : ∀ g' ∈ post, 0 ≤ g'.1 → g'.2.length < g.2.length) :
    (update_location_centroid point cluster labels).1 = compute_centroid g.2 := by
  have hdef : (update_location_centroid point cluster labels).1 =
      (select_biggest (group_by_label
          (labels.zip ((cluster ++ [point]).map gen2arr)))).getD
        (compute_centroid ((cluster ++ [point]).map gen2arr)) := rfl
  rw [hdef, hsplit, select_biggest_last_max pre post g hg hpre hpost]
  rfl

/-- Witness for C3 amended: the tie scenario of the counterexample, resolved
to the later cluster by the theorem. -/
theorem update_centroid_last_max_wit :
    (update_location_centroid ⟨10, 12⟩ [⟨0, 0⟩, ⟨0, 2⟩, ⟨10, 10⟩] [0, 0, 1, 1]).1 =
      compute_centroid [(10, 10), (12, 10)] :=
  update_centroid_last_max ⟨10, 12⟩ [⟨0, 0⟩, ⟨0, 2⟩, ⟨10, 10⟩] [0, 0, 1, 1]
    [(0, [(0, 0), (2, 0)])] [] (1, [(10, 10), (12, 10)])
    (by simp +decide [group_by_label, add_to_groups, gen2arr])
    (by decide) (by simp +decide) (by simp)

/-! ### Resolver claims -/

/-- C2 counterexample: KB candidates at distances [50, 10] and one API
candidate at distance 5, limit 3 — the returned alternatives carry distances
[10, 50, 5], which is not ascending, refuting the sortedness invariant. -/
theorem infer_location_invariant_cex :
    (infer_location taxicab [] [] ⟨0, 0⟩
        (some (fun _ _ => [("kb50", ⟨50, 0⟩, ()), ("kb10", ⟨10, 0⟩, ())])) 100 true (some "k")
        false none 3 ⟨200, [⟨"g5", 5, 0, []⟩]⟩ ⟨200, []⟩).map
      (fun loc => loc.other.map (fun c => c.distance)) = some [10, 50, 5] ∧
    ¬ List.Sorted (· ≤ ·) ([10, 50, 5] : List ℚ) := by
  constructor
  · norm_num +decide [infer_location, kb_candidates, query_google, from_cache, key_truthy,
      taxicab, sort_by_distance, cand_le, google_results]
  · intro h
    have h3 := (List.sorted_cons.mp (List.sorted_cons.mp h).2).1 5 (by simp)
    norm_num at h3

/-- The guarded sort of `api_locations` always yields an ascending list. -/
theorem sorted_guarded_sort (l : List Candidate) :
    List.Sorted cand_le (if 0 < l.length then sort_by_distance l else l) := by
  split
  · exact List.sorted_insertionSort cand_le _
  · next h =>
    rw [List.eq_nil_of_length_eq_zero (Nat.eq_zero_of_not_pos h)]
    exact List.sorted_nil

/-- C2 amended: when the KB candidate set is empty the resolver returns a
`Location` with the sentinel label (even when alternatives are non-empty) and
ascending-sorted alternatives; when the KB candidate set is non-empty, any
returned `Location` has `label = alternatives[0].label`, but the alternatives
are the sorted KB block followed by the sorted API block, not globally
sorted. -/
theorem infer_location_invariant (dist : Point → Point → ℚ) (g_cache f_cache : Cache)
    (point : Point) (location_query : Option (Point → ℚ → List (String × Point × Unit)))
    (max_distance : ℚ) (use_google : Bool) (google_key : Option String)
    (use_foursquare : Bool) (foursquare_key : Option String) (limit : Nat)
    (g_resp : GResp) (f_resp : FResp) :
    (kb_candidates dist point location_query max_distance = [] →
      ∃ loc,
        infer_location dist g_cache f_cache point location_query max_distance use_google
          google_key use_foursquare foursquare_key limit g_resp f_resp = some loc ∧
        loc.label = unknown_label ∧ List.Sorted cand_le loc.other) ∧
    (∀ loc,
      infer_location dist g_cache f_cache point location_query max_distance use_google
        google_key use_foursquare foursquare_key limit g_resp f_resp = some loc →
      kb_candidates dist point location_query max_distance ≠ [] →
      ∃ c, loc.other.head? = some c ∧ loc.label = c.label) := by
  constructor
  · intro hkb
    simp only [infer_location, hkb, List.length_nil, lt_self_iff_false, if_false]
    refine ⟨_, rfl, rfl, ?_⟩
    exact sorted_guarded_sort _
  · intro loc hres hkb
    simp only [infer_location] at hres
    rw [if_pos (List.length_pos.mpr hkb)] at hres
    split at hres
    · next c heq =>
      obtain rfl := (Option.some.inj hres).symm
      exact ⟨c, heq, rfl⟩
    · exact absurd hres (by simp)

/-- Witness for C2 amended: empty KB, three unsorted API candidates, limit 1 —
the sentinel-labelled result with sorted alternatives exists. -/
theorem infer_location_invariant_wit :
    ∃ loc,
      infer_location taxicab [] [] ⟨0, 0⟩ none 100 true (some "k") false none 1
        ⟨200, [⟨"g40", 40, 0, []⟩, ⟨"g5", 5, 0, []⟩, ⟨"g20", 20, 0, []⟩]⟩ ⟨200, []⟩ =
        some loc ∧
      loc.label = unknown_label ∧ List.Sorted cand_le loc.other :=
  (infer_location_invariant taxicab [] [] ⟨0, 0⟩ none 100 true (some "k") false none 1
    ⟨200, [⟨"g40", 40, 0, []⟩, ⟨"g5", 5, 0, []⟩, ⟨"g20", 20, 0, []⟩]⟩ ⟨200, []⟩).1 rfl

/-- C1 counterexample: KB candidates at distances [50, 10], API candidates at
[5, 30], limit 3 — the result's alternatives carry distances [10, 50, 5]
(sorted KB block, then sorted API block, truncated), not the claimed
[10, 5, 30]. -/
theorem infer_location_merge_order_cex :
    (infer_location taxicab [] [] ⟨0, 0⟩
        (some (fun _ _ => [("kb50", ⟨50, 0⟩, ()), ("kb10", ⟨10, 0⟩, ())])) 100 true (some "k")
        false none 3 ⟨200, [⟨"g5", 5, 0, []⟩, ⟨"g30", 30, 0, []⟩]⟩ ⟨200, []⟩).map
      (fun loc => loc.other.map (fun c => c.distance)) = some [10, 50, 5] ∧
    ([10, 50, 5] : List ℚ) ≠ [10, 5, 30] := by
  constructor
  · norm_num +decide [infer_location, kb_candidates, query_google, from_cache, key_truthy,
      taxicab, sort_by_distance, cand_le, google_results]
  · decide

/-- C1 amended: with KB candidates at distances [50, 10] and Google (the only
enabled provider) candidates at [5, 30] and limit 3, the result is labelled by
the KB candidate at distance 10 and its alternatives are
[KB@10, KB@50, API@5]: the sorted KB block keeps priority over the sorted API
block and the concatenation is truncated without a global re-sort. -/
theorem infer_location_merge_order (dist : Point → Point → ℚ) (g_cache f_cache : Cache)
    (point : Point) (location_query : Option (Point → ℚ → List (String × Point × Unit)))
    (max_distance : ℚ) (google_key foursquare_key : Option String)
    (g_resp : GResp) (f_resp : FResp) (k1 k2 a1 a2 : Candidate)
    (hkb : kb_candidates dist point location_query max_distance = [k1, k2])
    (hd1 : k1.distance = 50) (hd2 : k2.distance = 10)
    (hkey : key_truthy google_key = true)
    (hapi : (query_google dist g_cache point max_distance google_key g_resp).result = [a1, a2])
    (hd3 : a1.distance = 5) (hd4 : a2.distance = 30) :
    infer_location dist g_cache f_cache point location_query max_distance true google_key
      false foursquare_key 3 g_resp f_resp =
      some ⟨k2.label, PosVal.pt point, [k2, k1, a1]⟩ := by
  simp only [infer_location, hkb, hkey, hapi]
  norm_num [sort_by_distance, cand_le, hd1, hd2, hd3, hd4]

/-- Witness for C1 amended: the concrete [50, 10] / [5, 30] scenario. -/
theorem infer_location_merge_order_wit :
    infer_location taxicab [] [] ⟨0, 0⟩
      (some (fun _ _ => [("kb50", ⟨50, 0⟩, ()), ("kb10", ⟨10, 0⟩, ())])) 100 true (some "k")
      false none 3 ⟨200, [⟨"g5", 5, 0, []⟩, ⟨"g30", 30, 0, []⟩]⟩ ⟨200, []⟩ =
      some ⟨"kb10", PosVal.pt ⟨0, 0⟩,
        [⟨"kb10", 10, none, "KB"⟩, ⟨"kb50", 50, none, "KB"⟩,
          ⟨"g5", 5, some [], "GOOGLE"⟩]⟩ :=
  infer_location_merge_order taxicab [] [] ⟨0, 0⟩
    (some (fun _ _ => [("kb50", ⟨50, 0⟩, ()), ("kb10", ⟨10, 0⟩, ())])) 100 (some "k") none
    ⟨200, [⟨"g5", 5, 0, []⟩, ⟨"g30", 30, 0, []⟩]⟩ ⟨200, []⟩
    ⟨"kb50", 50, none, "KB"⟩ ⟨"kb10", 10, none, "KB"⟩ ⟨"g5", 5, some [], "GOOGLE"⟩
    ⟨"g30", 30, some [], "GOOGLE"⟩
    (by simp +decide [kb_candidates, taxicab]) rfl rfl (by decide)
    (by simp +decide [query_google, from_cache, key_truthy, google_results, taxicab]) rfl rfl

/-- C10: a KB query function returning one candidate together with limit 0
drives the knowledge-base branch to truncate its list to `[]` and then read
its first element: the Python code raises `IndexError` (modelled by `none`)
instead of returning a `Location`. -/
theorem infer_location_limit_zero_oob :
    infer_location taxicab [] [] ⟨0, 0⟩ (some (fun _ _ => [("kb", ⟨1, 0⟩, ())])) 100
      false none false none 0 ⟨200, []⟩ ⟨200, []⟩ = none := by
  norm_num +decide [infer_location, kb_candidates, key_truthy, taxicab, sort_by_distance,
    cand_le]

/-! ### Serialization claims -/

/-- C9 counterexample: round-tripping a concrete `Location` yields a centroid
holding the raw position JSON, not the original `Point` value: the position is
not identical. -/
theorem location_round_trip_cex :
    ((Location.to_json ⟨"home", PosVal.pt ⟨1, 2⟩,
        [⟨"cafe", 5, some ["food"], "GOOGLE"⟩]⟩).bind Location.from_json).map
      (fun loc => loc.centroid) = some (PosVal.json (Point.to_json ⟨1, 2⟩)) ∧
    PosVal.json (Point.to_json ⟨1, 2⟩) ≠ PosVal.pt ⟨1, 2⟩ :=
  ⟨rfl, fun h => nomatch h⟩

/-- C9 amended: serializing any `Location` built on an actual `Point` and
deserializing the result preserves the label, resets the alternatives to `[]`,
and stores the *serialized JSON form* of the position (same coordinates, but
not the original `Point` value). -/
theorem location_round_trip (label : String) (p : Point) (other : List Candidate) :
    (Location.to_json ⟨label, PosVal.pt p, other⟩).bind Location.from_json =
      some ⟨label, PosVal.json p.to_json, []⟩ := rfl

end TTT
